import Mathlib

/-!
Shallow embedding of the Honeybee component
"Honeybee_infORventPerArea Calculator.py".

Python floats are modelled as real numbers.  Python exceptions that can be
raised inside `main` are modelled with `Except String`: `ZeroDivisionError`
from the two intensity divisions (caught by the surrounding `try` blocks)
and `ValueError` from `math.pow` on a negative base with the non-integer
exponent `0.63` (not caught anywhere).  Zone and surface records carry the
attributes the component reads from the host; geometry handles are opaque
and kept as a type parameter `G`.
-/

namespace InfVent

/-- A bounding surface of a zone: the numeric type code (`2` floor, `2.5`
ground floor, `2.75` exposed floor), the boundary-condition string `BC`,
and an opaque geometry handle.  The discrete codes are kept as rationals. -/
structure SurfaceRecord (G : Type) where
  srfType : ℚ
  BC : String
  geometry : G

/-- A Honeybee zone as the component reads it from the hive: exposed
envelope area (`getExposedArea`), floor area (`getFloorArea`), volume
(`getZoneVolume`), name and the list of bounding surfaces. -/
structure ZoneRecord (G : Type) where
  name : String
  exposedArea : ℝ
  floorArea : ℝ
  volume : ℝ
  surfaces : List (SurfaceRecord G)

/-- Per-zone numeric results of one loop iteration of `main`: the two
intensities appended to `infPerAreaFacade` and `ventPerAreaFloor`, and the
warning message (if any) each of the two `try` blocks emitted. -/
structure ZoneResult where
  inf : ℝ
  vent : ℝ
  infWarn : Option String
  ventWarn : Option String

/-- The four lists returned by `main`, plus the runtime warning messages in
the order they are emitted. -/
structure MainResult (G : Type) where
  infPerAreaFacade : List ℝ
  ventPerAreaFloor : List ℝ
  allExposed : List G
  allFloors : List G
  warnings : List String

/-- Python `int(...)` applied to a numeric code: truncation toward zero
(`Int.div` is T-division), as `int` behaves on floats. -/
def pyInt (q : ℚ) : ℤ := q.num.tdiv (q.den : ℤ)

/-- Python `str.lower()` restricted to what the component compares: ASCII
lowercasing, character by character. -/
def pyLower (s : String) : String := ⟨s.data.map Char.toLower⟩

/-- The warning text of the first `except` branch (sic, typo in source). -/
def facadeWarning : String :=
  "One of the HBZones did not have any esposed surface area.\nA value of 0 will be output for infPerAreaFacade."

/-- The warning text of the second `except` branch. -/
def floorWarning : String :=
  "One of the HBZones did not have any floor area.\nA value of 0 will be output for ventPerAreaFloor."

/-- The error Python raises for `math.pow` on a negative base with a
non-integer exponent. -/
def mathDomainError : String := "ValueError: math domain error"

/-- The error Python raises for float division by zero. -/
def zeroDivisionError : String := "ZeroDivisionError: float division by zero"

/-- Python `/` on floats: raises `ZeroDivisionError` on a zero divisor. -/
noncomputable def pyDiv (a b : ℝ) : Except String ℝ :=
  if b = 0 then .error zeroDivisionError else .ok (a / b)

/-- Python `math.pow`: raises `ValueError` on a negative base with a
non-integer exponent (the only exponent used here is `0.63`); otherwise
real exponentiation. -/
noncomputable def pyPow (base expo : ℝ) : Except String ℝ :=
  if base < 0 then .error mathDomainError else .ok (base ^ expo)

variable {G : Type}

/-- Lines 91-96 of `main`: the base flow rate in m3/s.  `unit = true` is
ACH mode (`airFlowRate * zoneVolume / 3600`); `unit = false` is area mode
(`airFlowRate * zoneSrfArea`). -/
noncomputable def standardFlow (rate : ℝ) (unit : Bool) (z : ZoneRecord G) : ℝ :=
  if unit then rate * z.volume / 3600 else rate * z.exposedArea

/-- Lines 99-100 of `main`: if `_blowerPressure_` is not `None` and not
`0`, divide the flow by `math.pow(_blowerPressure_ / 4, 0.63)`. -/
noncomputable def correctedFlow (bp : Option ℝ) (flow : ℝ) : Except String ℝ :=
  match bp with
  | none => .ok flow
  | some p =>
    if p = 0 then .ok flow
    else (pyPow (p / 4) 0.63).map (fun d => flow / d)

/-- One `try ... except` block of `main`: the division result on success,
or the sentinel `0` together with the warning message on an exception. -/
noncomputable def intensityOrZero (flow area : ℝ) (msg : String) : ℝ × Option String :=
  match pyDiv flow area with
  | .ok v => (v, none)
  | .error _ => (0, some msg)

/-- One iteration of the `for count, HZone` loop over a single zone:
compute the corrected flow (propagating the uncaught `math.pow` error),
then the two guarded intensity divisions. -/
noncomputable def processZone (rate : ℝ) (unit : Bool) (bp : Option ℝ)
    (z : ZoneRecord G) : Except String ZoneResult :=
  match correctedFlow bp (standardFlow rate unit z) with
  | .error e => .error e
  | .ok flow =>
    let a := intensityOrZero flow z.exposedArea facadeWarning
    let b := intensityOrZero flow z.floorArea floorWarning
    .ok ⟨a.1, b.1, a.2, b.2⟩

/-- The geometries a zone contributes to `allFloors`: its surfaces passing
the test `int(srf.type) == 2` (lines 129-132). -/
def zoneFloors (z : ZoneRecord G) : List G :=
  (z.surfaces.filter (fun s => decide (pyInt s.srfType = 2))).map (fun s => s.geometry)

/-- Reading of the floor filter in which a surface is kept exactly when its
type code equals `2` (so that codes `2.5` and `2.75` are excluded), for
comparison with the `zoneFloors` of the code. -/
def zoneFloorsSpec (z : ZoneRecord G) : List G :=
  (z.surfaces.filter (fun s => decide (s.srfType = 2))).map (fun s => s.geometry)

/-- The geometries a zone contributes to `allExposed`: its surfaces passing
the test `HBSrf.BC.lower() == "outdoors"` (lines 133-135). -/
def zoneExposed (z : ZoneRecord G) : List G :=
  (z.surfaces.filter (fun s => decide (pyLower s.BC = "outdoors"))).map (fun s => s.geometry)

/-- The `for count, HZone in enumerate(zones)` loop of `main`: processes
zones in order, appending per-zone intensities and flattened geometry
collections; an uncaught exception from a zone aborts the whole run. -/
noncomputable def mainLoop (rate : ℝ) (unit : Bool) (bp : Option ℝ) :
    List (ZoneRecord G) → Except String (MainResult G)
  | [] => .ok ⟨[], [], [], [], []⟩
  | z :: zs =>
    match processZone rate unit bp z with
    | .error e => .error e
    | .ok r =>
      match mainLoop rate unit bp zs with
      | .error e => .error e
      | .ok rest =>
        .ok ⟨r.inf :: rest.infPerAreaFacade,
             r.vent :: rest.ventPerAreaFloor,
             zoneExposed z ++ rest.allExposed,
             zoneFloors z ++ rest.allFloors,
             (r.infWarn.toList ++ r.ventWarn.toList) ++ rest.warnings⟩

/-- `checkInputs` (lines 62-76): `checkData` starts `True`, is cleared when
`_airFlowRate < 0` or when `_HBZones[0] == None`; `unit` defaults to `True`
when `_ACHorM3sM2_` is `None`. -/
noncomputable def checkInputs (airFlowRate : ℝ)
    (HBZones : List (Option (ZoneRecord G))) (achFlag : Option Bool) : Bool × Bool :=
  let c1 : Bool := if airFlowRate < 0 then false else true
  let c2 : Bool :=
    match HBZones.head? with
    | some none => false
    | _ => true
  (c1 && c2, achFlag.getD true)

open Classical in
/-- The module entry (lines 162-167): the batch only runs when `_HBZones`
is nonempty, `_airFlowRate` is truthy (nonzero) and the host readiness
check `initCheck` passed; then `checkInputs` gates `main`.  `none` models
"the outputs were never assigned".  The hive lookup is modelled as reading
the zone records behind the non-null handles. -/
noncomputable def moduleEntry (HBZones : List (Option (ZoneRecord G)))
    (airFlowRate : ℝ) (achFlag : Option Bool) (bp : Option ℝ) (initCheck : Bool) :
    Option (Except String (MainResult G)) :=
  if HBZones ≠ [] ∧ airFlowRate ≠ 0 ∧ initCheck = true then
    let cu := checkInputs airFlowRate HBZones achFlag
    if cu.1 then some (mainLoop airFlowRate cu.2 bp HBZones.reduceOption) else none
  else none

/-- The rational `2.5` as an explicit fraction record (ground-floor code). -/
def q25 : ℚ := ⟨5, 2, by decide, by decide⟩

/-- The rational `2.75` as an explicit fraction record (exposed-floor code). -/
def q275 : ℚ := ⟨11, 4, by decide, by decide⟩

/-- A zone whose only surface is a ground floor (type code `2.5`). -/
def gfZone : ZoneRecord ℕ := ⟨"gfZone", 0, 0, 0, [⟨q25, "surface", 7⟩]⟩

/-- A plain zone used to exhibit the blower-pressure failure. -/
noncomputable def znegBP : ZoneRecord ℕ := ⟨"znegBP", 1, 2, 3600, []⟩

/-- A plain zone used to run the batch at a 50 Pa blower pressure. -/
noncomputable def z50 : ZoneRecord ℕ := ⟨"z50", 2, 4, 7200, []⟩

/-- A zone without exposed surface area but with a floor. -/
noncomputable def zNoExp : ZoneRecord ℕ := ⟨"zNoExp", 0, 2, 3600, []⟩

/-- A zone with unit areas, convenient for evaluating the loop. -/
noncomputable def zUnit : ZoneRecord ℕ := ⟨"zUnit", 1, 1, 3600, []⟩

/-- The loop output on the single zone `zUnit` at rate 1, ACH mode, no
pressure correction. -/
noncomputable def resUnit : MainResult ℕ := ⟨[1], [1], [], [], []⟩

/-- A zone with zero exposed area, for the area-mode counterexamples. -/
noncomputable def zZeroExp : ZoneRecord ℕ := ⟨"zZeroExp", 0, 2, 5, []⟩

/-- A zone with nonzero exposed area, for the area-mode identity. -/
noncomputable def zExp5 : ZoneRecord ℕ := ⟨"zExp5", 5, 2, 7, []⟩

/-- C1 (amended): for every zone, `allFloors` receives exactly the
geometries of the surfaces whose type code truncates to `2` under Python
`int`; since `int(2.5) = int(2.75) = 2`, the ground-floor and
exposed-floor codes are included by the test, not excluded. -/
theorem c1_allFloors_truncated_code (G : Type) (z : ZoneRecord G) (g : G) :
    (g ∈ zoneFloors z ↔ ∃ s ∈ z.surfaces, pyInt s.srfType = 2 ∧ s.geometry = g) ∧
    pyInt 2 = 2 ∧ pyInt (5/2) = 2 ∧ pyInt (11/4) = 2 := by
  refine ⟨?_, by norm_num [pyInt], ?_, ?_⟩
  · simp only [zoneFloors, List.mem_map, List.mem_filter, decide_eq_true_eq]
    constructor
    · rintro ⟨s, ⟨hs, ht⟩, hg⟩
      exact ⟨s, hs, ht, hg⟩
    · rintro ⟨s, hs, ht, hg⟩
      exact ⟨s, ⟨hs, ht⟩, hg⟩
  · norm_num [pyInt]
    decide
  · norm_num [pyInt]
    decide

/-- C1 counterexample: a zone whose only surface carries the ground-floor
code `2.5` contributes the geometry of that surface to `allFloors`,
although the exact-match rule of the claim (`zoneFloorsSpec`) excludes it. -/
theorem c1_counterexample :
    zoneFloors gfZone = [7] ∧ zoneFloorsSpec gfZone = [] ∧ q25 ≠ 2 := by
  refine ⟨by decide, by decide, by decide⟩

/-- C10: for every zone, `allExposed` receives exactly the geometries of
the surfaces whose boundary-condition string lowercases to `"outdoors"`;
the comparison is case-insensitive, e.g. it accepts `"OutDoors"`. -/
theorem c10_allExposed_outdoors (G : Type) (z : ZoneRecord G) (g : G) :
    (g ∈ zoneExposed z ↔ ∃ s ∈ z.surfaces, pyLower s.BC = "outdoors" ∧ s.geometry = g) ∧
    pyLower "OutDoors" = "outdoors" ∧ pyLower "outdoors" = "outdoors" := by
  refine ⟨?_, by decide, by decide⟩
  simp only [zoneExposed, List.mem_map, List.mem_filter, decide_eq_true_eq]
  constructor
  · rintro ⟨s, ⟨hs, ht⟩, hg⟩
    exact ⟨s, hs, ht, hg⟩
  · rintro ⟨s, hs, ht, hg⟩
    exact ⟨s, ⟨hs, ht⟩, hg⟩

/-- C3: the base flow rate is `rate * volume / 3600` in ACH mode,
`rate * exposedArea` in area mode, and `checkInputs` defaults the mode
flag to ACH when it is unset. -/
theorem c3_base_flow (G : Type) (rate : ℝ) (z : ZoneRecord G)
    (r : ℝ) (hz : List (Option (ZoneRecord G))) :
    standardFlow rate true z = rate * z.volume / 3600 ∧
    standardFlow rate false z = rate * z.exposedArea ∧
    (checkInputs r hz none).2 = true :=
  ⟨rfl, rfl, rfl⟩

/-- C4 (amended): with the blower pressure absent or `0` the correction is
the identity; with a positive pressure the corrected flow is
`flow / (p/4) ^ 0.63`; with a negative pressure `math.pow` raises an
uncaught ValueError instead of producing a flow. -/
theorem c4_pressure_correction (flow : ℝ) :
    correctedFlow none flow = .ok flow ∧
    correctedFlow (some 0) flow = .ok flow ∧
    (∀ p : ℝ, 0 < p → correctedFlow (some p) flow = .ok (flow / (p / 4) ^ (0.63 : ℝ))) ∧
    (∀ p : ℝ, p < 0 → correctedFlow (some p) flow = .error mathDomainError) := by
  refine ⟨rfl, by simp [correctedFlow], ?_, ?_⟩
  · intro p hp
    have h4 : ¬ (p / 4 < 0) := not_lt.2 (div_nonneg hp.le (by norm_num))
    simp [correctedFlow, pyPow, hp.ne', h4, Except.map]
  · intro p hp
    have h4 : p / 4 < 0 := div_neg_of_neg_of_pos hp (by norm_num)
    simp [correctedFlow, pyPow, hp.ne, h4, Except.map]

/-- C4 witness: at pressures 50 and -4 the amended statement evaluates as
claimed on the concrete flow 1. -/
theorem c4_pressure_correction_witness :
    correctedFlow (some 50) (1 : ℝ) = .ok ((1 : ℝ) / ((50 : ℝ) / 4) ^ (0.63 : ℝ)) ∧
    correctedFlow (some (-4)) (1 : ℝ) = .error mathDomainError :=
  ⟨(c4_pressure_correction 1).2.2.1 50 (by norm_num),
   (c4_pressure_correction 1).2.2.2 (-4) (by norm_num)⟩

/-- C4 counterexample: the pressure `-4` is present and nonzero, yet the
code raises instead of using `flow / ((-4)/4) ^ 0.63` for the zone. -/
theorem c4_counterexample :
    (-4 : ℝ) ≠ 0 ∧
    correctedFlow (some (-4)) (1 : ℝ) ≠ .ok ((1 : ℝ) / ((-4 : ℝ) / 4) ^ (0.63 : ℝ)) := by
  constructor
  · norm_num
  · have h4 : (-4 : ℝ) / 4 < 0 := by norm_num
    simp [correctedFlow, pyPow, h4, Except.map]

/-- C7: a negative flow rate, or a null first zone handle, makes
`checkInputs` report failure and the component computes nothing. -/
theorem c7_invalid_input_blocks (G : Type) (HBZones : List (Option (ZoneRecord G)))
    (airFlowRate : ℝ) (achFlag : Option Bool) (bp : Option ℝ) (initCheck : Bool)
    (h : airFlowRate < 0 ∨ HBZones.head? = some none) :
    moduleEntry HBZones airFlowRate achFlag bp initCheck = none := by
  unfold moduleEntry
  split
  · have hfst : (checkInputs airFlowRate HBZones achFlag).1 = false := by
      unfold checkInputs
      rcases h with h | h
      · simp [h]
      · rw [h]
        simp
    simp [hfst]
  · rfl

/-- C7 witness: with a flow rate of -1 and one valid zone handle the
component produces no outputs. -/
theorem c7_invalid_input_blocks_witness :
    moduleEntry [some zUnit] (-1) none none true = none :=
  c7_invalid_input_blocks ℕ [some zUnit] (-1) none none true (Or.inl (by norm_num))

/-- C8 (amended): for a blower pressure above 4 Pa, the corrected flow is
`flow / (p/4) ^ 0.63` and is strictly below the uncorrected flow whenever
the uncorrected flow is positive; a zone with zero base flow keeps flow 0. -/
theorem c8_pressure_strictly_reduces (flow p : ℝ) (hf : 0 < flow) (hp : 4 < p) :
    correctedFlow (some p) flow = .ok (flow / (p / 4) ^ (0.63 : ℝ)) ∧
    flow / (p / 4) ^ (0.63 : ℝ) < flow := by
  have hp0 : (0 : ℝ) < p := lt_trans (by norm_num) hp
  have hq : (1 : ℝ) < p / 4 := by
    rw [lt_div_iff₀ (by norm_num)]
    linarith
  have hd : (1 : ℝ) < (p / 4) ^ (0.63 : ℝ) := by
    rw [Real.one_lt_rpow_iff_of_pos (by linarith)]
    exact Or.inl ⟨hq, by norm_num⟩
  constructor
  · have h4 : ¬ (p / 4 < 0) := not_lt.2 (by linarith)
    simp [correctedFlow, pyPow, hp0.ne', h4, Except.map]
  · exact div_lt_self hf hd

/-- C8 witness: at flow 1 and pressure 8 the corrected flow is strictly
below 1. -/
theorem c8_pressure_strictly_reduces_witness :
    correctedFlow (some 8) (1 : ℝ) = .ok ((1 : ℝ) / ((8 : ℝ) / 4) ^ (0.63 : ℝ)) ∧
    (1 : ℝ) / ((8 : ℝ) / 4) ^ (0.63 : ℝ) < 1 :=
  c8_pressure_strictly_reduces 1 8 (by norm_num) (by norm_num)

/-- C8 counterexample: a zone with zero exposed area in area mode has base
flow 0, and at pressure 8 > 4 the corrected flow equals the uncorrected
flow instead of being strictly smaller. -/
theorem c8_counterexample :
    (4 : ℝ) < 8 ∧
    standardFlow 1 false zZeroExp = 0 ∧
    correctedFlow (some 8) (standardFlow 1 false zZeroExp) =
      .ok (standardFlow 1 false zZeroExp) := by
  have hsf : standardFlow 1 false zZeroExp = 0 := by
    simp [standardFlow, zZeroExp]
  refine ⟨by norm_num, hsf, ?_⟩
  rw [hsf]
  have h4 : ¬ ((8 : ℝ) / 4 < 0) := by norm_num
  simp [correctedFlow, pyPow, h4, Except.map]

/-- C9 (amended): in area mode with no pressure correction, every zone
with nonzero exposed area gets a facade intensity equal to the input rate. -/
theorem c9_area_mode_identity (G : Type) (rate : ℝ) (z : ZoneRecord G)
    (h : z.exposedArea ≠ 0) :
    ∃ r, processZone rate false none z = .ok r ∧ r.inf = rate := by
  refine ⟨⟨rate * z.exposedArea / z.exposedArea,
          (intensityOrZero (rate * z.exposedArea) z.floorArea floorWarning).1,
          none,
          (intensityOrZero (rate * z.exposedArea) z.floorArea floorWarning).2⟩, ?_, ?_⟩
  · simp [processZone, correctedFlow, standardFlow, intensityOrZero, pyDiv, h]
  · exact mul_div_cancel_right₀ rate h

/-- C9 witness: rate 2 on a zone with exposed area 5 yields facade
intensity 2. -/
theorem c9_area_mode_identity_witness :
    ∃ r, processZone 2 false none zExp5 = .ok r ∧ r.inf = 2 :=
  c9_area_mode_identity ℕ 2 zExp5 (by norm_num [zExp5])

/-- C9 counterexample: at rate 1 in area mode, a zone with zero exposed
area outputs the sentinel 0, not the rate 1. -/
theorem c9_counterexample :
    processZone (1 : ℝ) false none zZeroExp = .ok ⟨0, 0, some facadeWarning, none⟩ ∧
    (0 : ℝ) ≠ 1 := by
  constructor
  · simp [processZone, correctedFlow, standardFlow, intensityOrZero, pyDiv, zZeroExp]
  · norm_num

/-- Unfolding helper: a successful corrected flow makes `processZone`
return the two guarded divisions. -/
theorem processZone_ok (rate : ℝ) (unit : Bool) (bp : Option ℝ) (z : ZoneRecord G)
    (flow : ℝ) (hf : correctedFlow bp (standardFlow rate unit z) = .ok flow) :
    processZone rate unit bp z =
      .ok ⟨(intensityOrZero flow z.exposedArea facadeWarning).1,
           (intensityOrZero flow z.floorArea floorWarning).1,
           (intensityOrZero flow z.exposedArea facadeWarning).2,
           (intensityOrZero flow z.floorArea floorWarning).2⟩ := by
  simp [processZone, hf]

/-- Unfolding helper: the loop on `z :: zs` when both the head zone and
the tail succeed. -/
theorem mainLoop_cons_ok (rate : ℝ) (unit : Bool) (bp : Option ℝ) (z : ZoneRecord G)
    (zs : List (ZoneRecord G)) (r : ZoneResult) (rest : MainResult G)
    (hr : processZone rate unit bp z = .ok r)
    (hrest : mainLoop rate unit bp zs = .ok rest) :
    mainLoop rate unit bp (z :: zs) =
      .ok ⟨r.inf :: rest.infPerAreaFacade, r.vent :: rest.ventPerAreaFloor,
           zoneExposed z ++ rest.allExposed, zoneFloors z ++ rest.allFloors,
           (r.infWarn.toList ++ r.ventWarn.toList) ++ rest.warnings⟩ := by
  simp only [mainLoop, hr, hrest]

/-- Unfolding helper: an uncaught exception while processing the tail
aborts the loop even when the head zone succeeds. -/
theorem mainLoop_cons_tail_error (rate : ℝ) (unit : Bool) (bp : Option ℝ)
    (z : ZoneRecord G) (zs : List (ZoneRecord G)) (r : ZoneResult) (e : String)
    (hr : processZone rate unit bp z = .ok r)
    (hrest : mainLoop rate unit bp zs = .error e) :
    mainLoop rate unit bp (z :: zs) = .error e := by
  simp only [mainLoop, hr, hrest]

/-- Unfolding helper: an uncaught exception on the head zone aborts the
loop. -/
theorem mainLoop_cons_error (rate : ℝ) (unit : Bool) (bp : Option ℝ) (z : ZoneRecord G)
    (zs : List (ZoneRecord G)) (e : String)
    (hr : processZone rate unit bp z = .error e) :
    mainLoop rate unit bp (z :: zs) = .error e := by
  simp only [mainLoop, hr]

/-- C2 (amended): when the blower pressure is absent or nonnegative, no
exception escapes the computation of a zone — the guarded divisions turn
failures into the sentinel 0 plus a warning — and the batch runs to
completion on every zone list. -/
theorem c2_batch_total (G : Type) (rate : ℝ) (unit : Bool) (bp : Option ℝ)
    (zones : List (ZoneRecord G))
    (hbp : bp = none ∨ ∃ p, bp = some p ∧ 0 ≤ p) :
    ∃ res, mainLoop rate unit bp zones = .ok res := by
  have hcf : ∀ flow : ℝ, ∃ f, correctedFlow bp flow = .ok f := by
    intro flow
    rcases hbp with h | ⟨p, h, hp⟩
    · subst h; exact ⟨flow, rfl⟩
    · subst h
      by_cases h0 : p = 0
      · subst h0; simp [correctedFlow]
      · have h4 : ¬ (p / 4 < 0) := not_lt.2 (div_nonneg hp (by norm_num))
        exact ⟨flow / (p / 4) ^ (0.63 : ℝ),
               by simp [correctedFlow, pyPow, h0, h4, Except.map]⟩
  induction zones with
  | nil => exact ⟨_, rfl⟩
  | cons z zs ih =>
    obtain ⟨rest, hrest⟩ := ih
    obtain ⟨f, hf⟩ := hcf (standardFlow rate unit z)
    exact ⟨_, mainLoop_cons_ok rate unit bp z zs _ rest (processZone_ok rate unit bp z f hf) hrest⟩

/-- C2 witness: the batch completes on one zone at a 50 Pa blower
pressure. -/
theorem c2_batch_total_witness :
    ∃ res, mainLoop 1 true (some 50) [z50] = .ok res :=
  c2_batch_total ℕ 1 true (some 50) [z50] (Or.inr ⟨50, rfl, by norm_num⟩)

/-- C2 counterexample: a blower pressure of -4 Pa (admitted by the claim,
which allows any optional float) makes `math.pow((-4)/4, 0.63)` raise a
ValueError outside any `try`, aborting the whole batch. -/
theorem c2_counterexample :
    mainLoop 1 true (some (-4)) [znegBP] = .error mathDomainError := by
  have h4 : (-4 : ℝ) / 4 < 0 := by norm_num
  have hpz : processZone 1 true (some (-4)) znegBP = .error mathDomainError := by
    simp [processZone, correctedFlow, pyPow, h4, Except.map]
  exact mainLoop_cons_error 1 true (some (-4)) znegBP [] mathDomainError hpz

/-- C5: a zone with zero exposed (resp. floor) area yields the sentinel 0
for that intensity together with its specific warning instead of a
division error, the other intensity is computed independently from its own
area, and the loop continues with the remaining zones. -/
theorem c5_zero_area_isolated (G : Type) (rate : ℝ) (unit : Bool) (bp : Option ℝ)
    (z : ZoneRecord G) (zs : List (ZoneRecord G)) (flow : ℝ)
    (hf : correctedFlow bp (standardFlow rate unit z) = .ok flow) :
    (z.exposedArea = 0 →
      processZone rate unit bp z =
        .ok ⟨0, (intensityOrZero flow z.floorArea floorWarning).1, some facadeWarning,
             (intensityOrZero flow z.floorArea floorWarning).2⟩) ∧
    (z.floorArea = 0 →
      processZone rate unit bp z =
        .ok ⟨(intensityOrZero flow z.exposedArea facadeWarning).1, 0,
             (intensityOrZero flow z.exposedArea facadeWarning).2, some floorWarning⟩) ∧
    (z.exposedArea ≠ 0 →
      intensityOrZero flow z.exposedArea facadeWarning = (flow / z.exposedArea, none)) ∧
    (z.floorArea ≠ 0 →
      intensityOrZero flow z.floorArea floorWarning = (flow / z.floorArea, none)) ∧
    (∀ r rest, processZone rate unit bp z = .ok r →
      mainLoop rate unit bp zs = .ok rest →
      ∃ res, mainLoop rate unit bp (z :: zs) = .ok res ∧
        res.infPerAreaFacade = r.inf :: rest.infPerAreaFacade ∧
        res.ventPerAreaFloor = r.vent :: rest.ventPerAreaFloor) := by
  refine ⟨?_, ?_, ?_, ?_, ?_⟩
  · intro h
    simp [processZone, hf, intensityOrZero, pyDiv, h]
  · intro h
    simp [processZone, hf, intensityOrZero, pyDiv, h]
  · intro h
    simp [intensityOrZero, pyDiv, h]
  · intro h
    simp [intensityOrZero, pyDiv, h]
  · intro r rest hr hrest
    exact ⟨_, mainLoop_cons_ok rate unit bp z zs r rest hr hrest, rfl, rfl⟩

/-- C5 witness: a zone with zero exposed area and floor area 2 gets facade
intensity 0 with the facade warning, from the first clause of the zero-area
theorem at a concrete input. -/
theorem c5_zero_area_isolated_witness :
    processZone 1 true none zNoExp =
      .ok ⟨0, (intensityOrZero (standardFlow 1 true zNoExp) zNoExp.floorArea floorWarning).1,
           some facadeWarning,
           (intensityOrZero (standardFlow 1 true zNoExp) zNoExp.floorArea floorWarning).2⟩ :=
  (c5_zero_area_isolated ℕ 1 true none zNoExp [] (standardFlow 1 true zNoExp) rfl).1 rfl

/-- C6: whenever the batch runs to completion, the facade- and
floor-intensity outputs have exactly one entry per input zone, in input
order: entry `i` is the pair computed by `processZone` on zone `i`. -/
theorem c6_outputs_parallel_to_zones (G : Type) (rate : ℝ) (unit : Bool) (bp : Option ℝ)
    (zones : List (ZoneRecord G)) (res : MainResult G)
    (h : mainLoop rate unit bp zones = .ok res) :
    res.infPerAreaFacade.length = zones.length ∧
    res.ventPerAreaFloor.length = zones.length ∧
    ∀ i (hi : i < zones.length), ∃ r,
      processZone rate unit bp (zones.get ⟨i, hi⟩) = .ok r ∧
      res.infPerAreaFacade[i]? = some r.inf ∧
      res.ventPerAreaFloor[i]? = some r.vent := by
  induction zones generalizing res with
  | nil =>
    simp only [mainLoop] at h
    cases h
    refine ⟨rfl, rfl, ?_⟩
    intro i hi
    exact absurd hi (Nat.not_lt_zero i)
  | cons z zs ih =>
    cases hr : processZone rate unit bp z with
    | error e =>
      rw [mainLoop_cons_error rate unit bp z zs e hr] at h
      exact Except.noConfusion h
    | ok r =>
      cases hrest : mainLoop rate unit bp zs with
      | error e =>
        rw [mainLoop_cons_tail_error rate unit bp z zs r e hr hrest] at h
        exact Except.noConfusion h
      | ok rest =>
        rw [mainLoop_cons_ok rate unit bp z zs r rest hr hrest] at h
        cases h
        obtain ⟨h1, h2, h3⟩ := ih rest hrest
        refine ⟨by simp [h1], by simp [h2], ?_⟩
        intro i hi
        cases i with
        | zero => exact ⟨r, hr, by simp, by simp⟩
        | succ n =>
          obtain ⟨r2, hr2, ha, hb⟩ := h3 n (Nat.lt_of_succ_lt_succ hi)
          exact ⟨r2, hr2, by simpa using ha, by simpa using hb⟩

/-- C6 witness: on the one-zone list `[zUnit]` the loop returns `resUnit`,
whose two intensity lists each have length one. -/
theorem c6_outputs_parallel_to_zones_witness :
    resUnit.infPerAreaFacade.length = [zUnit].length ∧
    resUnit.ventPerAreaFloor.length = [zUnit].length := by
  have hsf : standardFlow 1 true zUnit = 1 := by
    norm_num [standardFlow, zUnit]
  have hf : correctedFlow none (standardFlow 1 true zUnit) = .ok 1 := by
    rw [hsf]
    rfl
  have hio : intensityOrZero 1 (1 : ℝ) facadeWarning = (1, none) := by
    norm_num [intensityOrZero, pyDiv]
  have hio2 : intensityOrZero 1 (1 : ℝ) floorWarning = (1, none) := by
    norm_num [intensityOrZero, pyDiv]
  have hpz : processZone 1 true none zUnit = .ok ⟨1, 1, none, none⟩ := by
    rw [processZone_ok 1 true none zUnit 1 hf]
    simp [zUnit, hio, hio2]
  have h : mainLoop 1 true none [zUnit] = .ok resUnit := by
    rw [mainLoop_cons_ok 1 true none zUnit [] ⟨1, 1, none, none⟩ ⟨[], [], [], [], []⟩ hpz rfl]
    rfl
  exact ⟨(c6_outputs_parallel_to_zones ℕ 1 true none [zUnit] resUnit h).1,
         (c6_outputs_parallel_to_zones ℕ 1 true none [zUnit] resUnit h).2.1⟩

end InfVent
